import Mathlib

/-!
Shallow embedding of the databricks-sql-python SQLAlchemy dialect sources
(src/databricks/sqlalchemy/dialect/base.py and
src/databricks/sqlalchemy/dialect/compiler.py).

The dialect is pure string-building glue invoked by a host ORM framework.
Host-framework calls (the identifier preparer's format_table / format_column,
the per-column self.process dispatch, create_table_suffix,
create_table_constraints) are not part of this repository; their results are
taken as input fields of the embedded data model, and everything the
repository's own code does with those strings is translated faithfully.
-/

namespace DatabricksDialect

/-- Python exceptions as far as this dialect observes them: the host's
CompileError carries a message (args index 0) and an optional chained cause
(set by util.raise_ with the from_ argument); every other exception is opaque
and is never caught by this dialect. -/
inductive PyExc where
  | compileError (msg : String) (cause : Option PyExc)
  | otherExc (msg : String)

/-- One entry of create.columns as visit_create_table sees it.  The fields
name, primary_key and liquid_cluster mirror the attributes of the dialect's
Column subclass (base.py line 80 sets self.liquid_cluster); processed is the
outcome of the host dispatch self.process(create_column, first_pk=...): a
rendered column clause, None, or a raised exception. -/
structure CreateColumn where
  name : String
  primary_key : Bool
  liquid_cluster : Option Bool
  processed : Except PyExc (Option String)

/-- The table object as visit_create_table reads it.  prefixes mirrors
table._prefixes; description mirrors table.description; formatted is the host
preparer.format_table(table) result; create_table_suffix is the host
self.create_table_suffix(table) result (empty string when falsy); constraints
is the host self.create_table_constraints(...) result (empty string when
falsy). -/
structure Table where
  prefixes : List String
  description : String
  formatted : String
  create_table_suffix : String
  constraints : String

/-- The CREATE TABLE DDL element: create.element and create.columns. -/
structure CreateTable where
  element : Table
  columns : List CreateColumn

/-- A column object as the comment-DDL visitors see it: formatted_full is the
host preparer.format_column(element, use_table=True, use_schema=True) result
and formatted_name is preparer.format_column(element, use_table=False). -/
structure ColumnObject where
  formatted_full : String
  formatted_name : String

/-- The DDL wrapper (the create / drop argument of the column-comment
visitors); its element attribute is the column object. -/
structure ColumnCommentOp where
  element : ColumnObject

/-- Python str.split with separator "." restricted to single characters:
splitting an empty list yields one empty field, and every dot starts a new
field.  Translated from the semantics of the split call in
DatabricksDDLCompiler._format_table_from_column. -/
def splitDots : List Char → List (List Char)
  | [] => [[]]
  | c :: rest =>
    match splitDots rest with
    | [] => [[c]]
    | h :: t => if c = '.' then [] :: h :: t else (c :: h) :: t

namespace DatabricksIdentifierPreparer

/-- DatabricksIdentifierPreparer.__init__ passes initial_quote set to a
backtick to the host preparer, making the backtick the quote delimiter. -/
def initial_quote : String := "`"

/-- Membership in the character class of the legal_characters pattern
r"^[A-Z0-9_]+$" compiled with re.I on a Unicode pattern: the 52 ASCII
letters, digits and underscore, plus the four non-ASCII letters that
Unicode case-insensitive matching adds to the A-to-Z range per the Python
re documentation: U+0130 (capital I with dot), U+0131 (dotless small i),
U+017F (long s) and U+212A (Kelvin sign). -/
def isLegalIdentChar (c : Char) : Bool :=
  (decide ('A' ≤ c) && decide (c ≤ 'Z')) ||
  (decide ('a' ≤ c) && decide (c ≤ 'z')) ||
  (decide ('0' ≤ c) && decide (c ≤ '9')) ||
  c == '_' ||
  c == '\u0130' || c == '\u0131' || c == '\u017F' || c == '\u212A'

/-- Whether re.compile(r"^[A-Z0-9_]+$", re.I).match(s) succeeds, translated
from Python regex semantics: the plus consumes the maximal run of legal
characters from the start, and the dollar anchor holds at the end of the
string or just before a newline that ends the string. -/
def legal_characters_is_match (s : String) : Bool :=
  let w := s.data.takeWhile isLegalIdentChar
  let r := s.data.dropWhile isLegalIdentChar
  !w.isEmpty && (r.isEmpty || r == ['\n'])

end DatabricksIdentifierPreparer

namespace DatabricksDDLCompiler

/-- DatabricksDDLCompiler.post_create_table: returns the string
" USING DELTA" for every table. -/
def post_create_table (_table : Table) : String := " USING DELTA"

/-- The per-column loop of DatabricksDDLCompiler.visit_create_table
(base.py lines 288 to 321).  State threaded exactly as in the source: the
accumulated text, the separator, and the first_pk flag.  A CompileError
raised by self.process is re-raised wrapped with table and column context by
util.raise_(..., from_=ce); any other exception propagates unchanged.  The
liquid-cluster collection in the loop body is commented out in the source, so
the loop touches no clustering state. -/
def createTableLoop (desc : String) :
    List CreateColumn → String → String → Bool →
    Except PyExc (String × String × Bool)
  | [], text, separator, first_pk => .ok (text, separator, first_pk)
  | col :: rest, text, separator, first_pk =>
    match col.processed with
    | .error (.compileError m cause) =>
      .error (.compileError
        ("(in table '" ++ desc ++ "', column '" ++ col.name ++ "'): " ++ m)
        (some (.compileError m cause)))
    | .error e => .error e
    | .ok none =>
      createTableLoop desc rest text separator (col.primary_key || first_pk)
    | .ok (some processed) =>
      createTableLoop desc rest (text ++ separator ++ "\t" ++ processed)
        ", \n" (col.primary_key || first_pk)

/-- DatabricksDDLCompiler.liquid_cluster_on_table: renders the CLUSTER BY
clause from the column names joined by a comma and a space. -/
def liquid_cluster_on_table (liquid_cluster_columns : List String) : String :=
  "CLUSTER BY (" ++ String.intercalate ", " liquid_cluster_columns ++ ")"

/-- DatabricksDDLCompiler.visit_create_table (base.py lines 263 to 335),
translated statement by statement.  The liquid_clustering flag and the
liquid_cluster_columns list are initialised as in the source and never
updated, because the code that would fill them (lines 317 to 321) is
commented out in the source. -/
def visit_create_table (create : CreateTable) : Except PyExc String :=
  let table := create.element
  let text := "\nCREATE "
  let text := if table.prefixes.isEmpty then text
    else text ++ String.intercalate " " table.prefixes ++ " "
  let text := text ++ "TABLE IF NOT EXISTS "
  let text := text ++ table.formatted ++ " "
  let text := if table.create_table_suffix = "" then text
    else text ++ table.create_table_suffix ++ " "
  let text := text ++ "("
  let liquid_clustering : Bool := false
  let liquid_cluster_columns : List String := []
  match createTableLoop table.description create.columns text "\n" false with
  | .error e => .error e
  | .ok (text, separator, _first_pk) =>
    let text := if table.constraints = "" then text
      else text ++ separator ++ "\t" ++ table.constraints
    let text := text ++ "\n)" ++ post_create_table table ++ "\n\n"
    let text := if liquid_clustering then
        text ++ "\n" ++ liquid_cluster_on_table liquid_cluster_columns ++ "\n\n"
      else text
    .ok text

/-- DatabricksDDLCompiler._format_table_from_column: splits the fully
qualified formatted column string on dots, takes field index 1 (an IndexError,
modelled as none, when there is no dot), and prepends field index 0 when
use_schema is requested. -/
def _format_table_from_column (column_object : ColumnCommentOp)
    (use_schema : Bool) : Option String :=
  let schema_table_column := column_object.element.formatted_full
  let parts := (splitDots schema_table_column.data).map (fun cs => String.mk cs)
  match parts.get? 1 with
  | none => none
  | some nm => some (if use_schema then parts.headD "" ++ "." ++ nm else nm)

/-- DatabricksDDLCompiler.visit_drop_column_comment: there is no DROP form;
the comment is replaced with the empty-string literal.  The IndexError that
_format_table_from_column can raise propagates (modelled as none). -/
def visit_drop_column_comment (drop : ColumnCommentOp) : Option String :=
  match _format_table_from_column drop true with
  | none => none
  | some t =>
    some ("ALTER TABLE " ++ t ++ " CHANGE COLUMN " ++
      drop.element.formatted_name ++ " COMMENT '';")

/-- DatabricksDDLCompiler.visit_drop_table: unconditional IF EXISTS guard
followed by the host-formatted table name. -/
def visit_drop_table (table : Table) : String :=
  "\nDROP TABLE IF EXISTS " ++ table.formatted

end DatabricksDDLCompiler

/-- A type object of the host's type system as the type compiler's
string-formatting sees it: str_repr is what Python str() renders for it. -/
structure TypeObject where
  str_repr : String

/-- The NUMERIC type's fields read by visit_NUMERIC. -/
structure NumericType where
  precision : Option Int
  scale : Option Int

/-- The ARRAY type: item_type is the element type object. -/
structure ArrayType where
  item_type : TypeObject

/-- Python equality between a type object and a str: the host's TypeEngine
does not overload equality against strings, so the default object equality
applies and the comparison is always False. -/
def pyEqTypeStr (_t : TypeObject) (_s : String) : Bool := false

namespace DatabricksTypeCompiler

/-- DatabricksTypeCompiler.visit_INTEGER. -/
def visit_INTEGER (_type_ : TypeObject) : String := "INT"

/-- DatabricksTypeCompiler.visit_NUMERIC: DECIMAL with optional precision
and scale, formatted by Python str of the integers. -/
def visit_NUMERIC (type_ : NumericType) : String :=
  match type_.precision with
  | none => "DECIMAL"
  | some p =>
    match type_.scale with
    | none => "DECIMAL(" ++ toString p ++ ")"
    | some sc => "DECIMAL(" ++ toString p ++ ", " ++ toString sc ++ ")"

/-- DatabricksTypeCompiler.visit_CHAR. -/
def visit_CHAR (_type_ : TypeObject) : String := "STRING"

/-- DatabricksTypeCompiler.visit_VARCHAR. -/
def visit_VARCHAR (_type_ : TypeObject) : String := "STRING"

/-- DatabricksTypeCompiler.visit_NCHAR. -/
def visit_NCHAR (_type_ : TypeObject) : String := "STRING"

/-- DatabricksTypeCompiler.visit_TEXT. -/
def visit_TEXT (_type_ : TypeObject) : String := "STRING"

/-- DatabricksTypeCompiler.visit_CLOB. -/
def visit_CLOB (_type_ : TypeObject) : String := "STRING"

/-- DatabricksTypeCompiler.visit_BLOB. -/
def visit_BLOB (_type_ : TypeObject) : String := "BINARY"

/-- DatabricksTypeCompiler.visit_TIME. -/
def visit_TIME (_type_ : TypeObject) : String := "TIMESTAMP"

/-- DatabricksTypeCompiler.visit_DATE. -/
def visit_DATE (_type_ : TypeObject) : String := "DATE"

/-- DatabricksTypeCompiler.visit_DATETIME. -/
def visit_DATETIME (_type_ : TypeObject) : String := "TIMESTAMP"

/-- DatabricksTypeCompiler.visit_JSON. -/
def visit_JSON (_type_ : TypeObject) : String := "STRUCT"

/-- DatabricksTypeCompiler.visit_ARRAY: compares the item type object with
the string "VARCHAR" (always False in Python) and otherwise interpolates the
item type's string representation. -/
def visit_ARRAY (type_ : ArrayType) : String :=
  if pyEqTypeStr type_.item_type "VARCHAR" then "ARRAY<STRING>"
  else "ARRAY<" ++ type_.item_type.str_repr ++ ">"

end DatabricksTypeCompiler

/-- Proof support: the text visit_create_table has accumulated when it
reaches the column loop, the same let-chain as in the definition. -/
def createTablePre (table : Table) : String :=
  let text := "\nCREATE "
  let text := if table.prefixes.isEmpty then text
    else text ++ String.intercalate " " table.prefixes ++ " "
  let text := text ++ "TABLE IF NOT EXISTS "
  let text := text ++ table.formatted ++ " "
  let text := if table.create_table_suffix = "" then text
    else text ++ table.create_table_suffix ++ " "
  text ++ "("

/-- Proof support: the text visit_create_table assembles after the column
loop from the loop's text and separator, the same let-chain as in the
definition (the liquid-clustering branch is dead there, its flag being the
initialised false). -/
def createTablePost (table : Table) (text separator : String) : String :=
  (if table.constraints = "" then text
    else text ++ separator ++ "\t" ++ table.constraints) ++
  "\n)" ++ DatabricksDDLCompiler.post_create_table table ++ "\n\n"

/-- Concrete table for the C1 example: no prefixes, no constraints, host
formats the table name as main.tbl (fields in declaration order: prefixes,
description, formatted, create_table_suffix, constraints). -/
def exC1 : CreateTable := ⟨⟨[], "this_table", "main.tbl", "", ""⟩, []⟩

/-- Concrete column for the C2 example whose host processing raises
CompileError with message boom (fields: name, primary_key, liquid_cluster,
processed). -/
def exC2col : CreateColumn := ⟨"c2", false, none, .error (.compileError "boom" none)⟩

/-- Concrete CREATE TABLE input for the C2 example. -/
def exC2 : CreateTable := ⟨⟨[], "t2", "t2", "", ""⟩, [exC2col]⟩

/-- Concrete column-comment DDL object for the C3 example: the host formats
the fully qualified column as sch.tab.col and the bare column as col. -/
def exC3 : ColumnCommentOp := ⟨⟨"sch.tab.col", "col"⟩⟩

/-- Concrete CREATE TABLE input for the C4 example: its single column is
selected for liquid clustering (liquid_cluster is some true) and renders as
x INT. -/
def exC4 : CreateTable := ⟨⟨[], "t", "t", "", ""⟩, [⟨"x", false, some true, .ok (some "x INT")⟩]⟩

/-- Concrete CREATE TABLE input for the C5 example, again with a
liquid-cluster column. -/
def exC5 : CreateTable := ⟨⟨[], "t5", "t5", "", ""⟩, [⟨"y", false, some true, .ok (some "y INT")⟩]⟩

/-- Concrete CREATE TABLE input for the C8 example. -/
def exC8 : CreateTable := ⟨⟨[], "t8", "t8", "", ""⟩, []⟩

/-- Concrete table object for the C8 drop-table example. -/
def exC8table : Table := ⟨[], "d8", "main.t8", "", ""⟩

/-- Helper: the column loop only ever appends to the accumulated text. -/
theorem createTableLoop_ok_extends (desc : String) (cols : List CreateColumn) :
    ∀ (text separator : String) (fpk : Bool) (res : String × String × Bool),
    DatabricksDDLCompiler.createTableLoop desc cols text separator fpk = .ok res →
    ∃ ext : List Char, res.1.data = text.data ++ ext := by
  induction cols with
  | nil =>
    intro text separator fpk res h
    simp only [DatabricksDDLCompiler.createTableLoop, Except.ok.injEq] at h
    exact ⟨[], by rw [← h]; simp⟩
  | cons col rest ih =>
    intro text separator fpk res h
    simp only [DatabricksDDLCompiler.createTableLoop] at h
    cases hp : col.processed with
    | error e =>
      rw [hp] at h
      cases e with
      | compileError m cause => simp at h
      | otherExc m => simp at h
    | ok po =>
      rw [hp] at h
      cases po with
      | none => exact ih _ _ _ _ h
      | some p =>
        obtain ⟨ext, hext⟩ := ih _ _ _ _ h
        refine ⟨separator.data ++ "\t".data ++ p.data ++ ext, ?_⟩
        rw [hext]
        simp [String.data_append]

/-- Helper: the column loop re-raises the first failing column's
CompileError with table and column context chained from the original, and
propagates any other exception unchanged. -/
theorem createTableLoop_first_error (desc : String) (pre : List CreateColumn) :
    ∀ (col : CreateColumn) (rest : List CreateColumn)
      (text separator : String) (fpk : Bool) (e : PyExc),
    (∀ c ∈ pre, ∃ v, c.processed = Except.ok v) →
    col.processed = Except.error e →
    DatabricksDDLCompiler.createTableLoop desc (pre ++ col :: rest) text separator fpk =
      .error (match e with
        | .compileError m cause => .compileError
            ("(in table '" ++ desc ++ "', column '" ++ col.name ++ "'): " ++ m)
            (some (.compileError m cause))
        | .otherExc m => .otherExc m) := by
  induction pre with
  | nil =>
    intro col rest text separator fpk e _ hcol
    simp only [List.nil_append, DatabricksDDLCompiler.createTableLoop]
    rw [hcol]
    cases e <;> rfl
  | cons c pre ih =>
    intro col rest text separator fpk e hpre hcol
    obtain ⟨v, hv⟩ := hpre c (List.mem_cons_self c pre)
    have hpre' : ∀ c ∈ pre, ∃ v, c.processed = Except.ok v :=
      fun c hc => hpre c (List.mem_cons_of_mem _ hc)
    simp only [List.cons_append, DatabricksDDLCompiler.createTableLoop]
    rw [hv]
    cases v with
    | none => exact ih col rest _ _ _ e hpre' hcol
    | some p => exact ih col rest _ _ _ e hpre' hcol

/-- Helper: the column loop reads nothing but name, primary_key and
processed, so rewriting every column's liquid_cluster attribute leaves it
unchanged. -/
theorem createTableLoop_map_liquid (desc : String) (f : CreateColumn → Option Bool)
    (cols : List CreateColumn) :
    ∀ (text separator : String) (fpk : Bool),
    DatabricksDDLCompiler.createTableLoop desc
        (cols.map (fun c => { c with liquid_cluster := f c })) text separator fpk =
      DatabricksDDLCompiler.createTableLoop desc cols text separator fpk := by
  induction cols with
  | nil => intro text separator fpk; rfl
  | cons col rest ih =>
    intro text separator fpk
    simp only [List.map_cons, DatabricksDDLCompiler.createTableLoop]
    have hproc : ({ col with liquid_cluster := f col } : CreateColumn).processed
        = col.processed := rfl
    rw [hproc]
    cases hp : col.processed with
    | error e => cases e <;> rfl
    | ok po => cases po with
      | none => exact ih _ _ _
      | some p => exact ih _ _ _

/-- Helper: visit_create_table is the column loop run from the pre text,
finished by the post text. -/
theorem visit_create_table_characterization (create : CreateTable) :
    DatabricksDDLCompiler.visit_create_table create =
      match DatabricksDDLCompiler.createTableLoop create.element.description
          create.columns (createTablePre create.element) "\n" false with
      | .error e => .error e
      | .ok (text, separator, _) =>
          .ok (createTablePost create.element text separator) := by
  cases hL : DatabricksDDLCompiler.createTableLoop create.element.description
      create.columns (createTablePre create.element) "\n" false with
  | error e =>
    simp only [DatabricksDDLCompiler.visit_create_table, createTablePre] at hL ⊢
    rw [hL]
  | ok r =>
    obtain ⟨t, separator, fpk⟩ := r
    simp only [DatabricksDDLCompiler.visit_create_table, createTablePre,
      createTablePost] at hL ⊢
    rw [hL]
    simp

/-- Helper: the pre text contains the unconditional TABLE IF NOT EXISTS
fragment. -/
theorem createTablePre_shape (table : Table) :
    ∃ a b : List Char,
      (createTablePre table).data = a ++ ("TABLE IF NOT EXISTS " : String).data ++ b := by
  unfold createTablePre
  simp only []
  by_cases h1 : table.prefixes.isEmpty <;> by_cases h2 : table.create_table_suffix = ""
  · rw [if_pos h1, if_pos h2]
    exact ⟨("\nCREATE " : String).data,
      table.formatted.data ++ (" " : String).data ++ ("(" : String).data,
      by simp [String.data_append, List.append_assoc]⟩
  · rw [if_pos h1, if_neg h2]
    exact ⟨("\nCREATE " : String).data,
      table.formatted.data ++ (" " : String).data ++
        table.create_table_suffix.data ++ (" " : String).data ++ ("(" : String).data,
      by simp [String.data_append, List.append_assoc]⟩
  · rw [if_neg h1, if_pos h2]
    exact ⟨("\nCREATE " : String).data ++
        (String.intercalate " " table.prefixes).data ++ (" " : String).data,
      table.formatted.data ++ (" " : String).data ++ ("(" : String).data,
      by simp [String.data_append, List.append_assoc]⟩
  · rw [if_neg h1, if_neg h2]
    exact ⟨("\nCREATE " : String).data ++
        (String.intercalate " " table.prefixes).data ++ (" " : String).data,
      table.formatted.data ++ (" " : String).data ++
        table.create_table_suffix.data ++ (" " : String).data ++ ("(" : String).data,
      by simp [String.data_append, List.append_assoc]⟩

/-- Helper: every successful visit_create_table text contains the
TABLE IF NOT EXISTS fragment and ends with the USING DELTA suffix and two
newlines. -/
theorem create_ok_shape (create : CreateTable) (s : String)
    (h : DatabricksDDLCompiler.visit_create_table create = Except.ok s) :
    (∃ a b : List Char,
      s.data = a ++ ("TABLE IF NOT EXISTS " : String).data ++ b) ∧
    ∃ d : List Char, s.data = d ++ (" USING DELTA\n\n" : String).data := by
  rw [visit_create_table_characterization] at h
  cases hL : DatabricksDDLCompiler.createTableLoop create.element.description
      create.columns (createTablePre create.element) "\n" false with
  | error e => rw [hL] at h; simp at h
  | ok r =>
    obtain ⟨t, separator, fpk⟩ := r
    rw [hL] at h
    simp only [Except.ok.injEq] at h
    obtain ⟨ext, hext⟩ := createTableLoop_ok_extends _ _ _ _ _ _ hL
    obtain ⟨a, b, hpre⟩ := createTablePre_shape create.element
    subst h
    unfold createTablePost
    simp only [DatabricksDDLCompiler.post_create_table]
    by_cases hc : create.element.constraints = ""
    · rw [if_pos hc]
      constructor
      · refine ⟨a, b ++ ext ++ ("\n) USING DELTA\n\n" : String).data, ?_⟩
        simp only [String.data_append]
        rw [hext, hpre]
        simp [List.append_assoc]
      · refine ⟨t.data ++ ("\n)" : String).data, ?_⟩
        simp [String.data_append, List.append_assoc]
    · rw [if_neg hc]
      constructor
      · refine ⟨a, b ++ ext ++ separator.data ++ ("\t" : String).data ++
            create.element.constraints.data ++ ("\n) USING DELTA\n\n" : String).data, ?_⟩
        simp only [String.data_append]
        rw [hext, hpre]
        simp [List.append_assoc]
      · refine ⟨t.data ++ separator.data ++ ("\t" : String).data ++
            create.element.constraints.data ++ ("\n)" : String).data, ?_⟩
        simp [String.data_append, List.append_assoc]

/-- Helper: a split never yields an empty field list. -/
theorem splitDots_ne_nil (l : List Char) : splitDots l ≠ [] := by
  cases l with
  | nil => simp [splitDots]
  | cons c rest =>
    simp only [splitDots]
    cases splitDots rest with
    | nil => simp
    | cons hd tl => by_cases hc : c = '.' <;> simp [hc]

/-- Helper: splitting a dot-free list yields that single field. -/
theorem splitDots_no_dot (l : List Char) (h : '.' ∉ l) : splitDots l = [l] := by
  induction l with
  | nil => rfl
  | cons c rest ih =>
    have hc : ¬ c = '.' := fun hh => h (by rw [hh]; exact List.mem_cons_self _ _)
    simp only [splitDots]
    rw [ih (fun hm => h (List.mem_cons_of_mem _ hm))]
    simp [hc]

/-- Helper: splitting at the first dot peels off the dot-free head field. -/
theorem splitDots_append (xs ys : List Char) (h : '.' ∉ xs) :
    splitDots (xs ++ '.' :: ys) = xs :: splitDots ys := by
  induction xs with
  | nil =>
    simp only [List.nil_append, splitDots]
    cases hys : splitDots ys with
    | nil => exact absurd hys (splitDots_ne_nil ys)
    | cons hd tl => simp
  | cons c xs ih =>
    have hc : ¬ c = '.' := fun hh => h (by rw [hh]; exact List.mem_cons_self _ _)
    simp only [List.cons_append, splitDots, List.append_eq]
    rw [ih (fun hm => h (List.mem_cons_of_mem _ hm))]
    simp [hc]

/-- Helper: rebuilding a string from its character data is the identity. -/
theorem mk_data (s : String) : String.mk s.data = s := rfl

/-- Claim C1 (amended): post_create_table returns the string " USING DELTA"
for every table, and the text returned by visit_create_table ends with that
post-create suffix followed by two newlines, so every generated CREATE TABLE
statement carries the USING DELTA clause. -/
theorem claim_C1_using_delta :
    (∀ table : Table, DatabricksDDLCompiler.post_create_table table = " USING DELTA") ∧
    ∀ (create : CreateTable) (s : String),
      DatabricksDDLCompiler.visit_create_table create = Except.ok s →
      (DatabricksDDLCompiler.post_create_table create.element ++ "\n\n").data <:+ s.data := by
  refine ⟨fun _ => rfl, fun create s h => ?_⟩
  obtain ⟨d, hd⟩ := (create_ok_shape create s h).2
  exact ⟨d, hd.symm⟩

/-- Claim C1 counterexample: for a concrete table the CREATE TABLE text does
not end with the post-create suffix itself (two newlines follow it), so the
claim as stated is false. -/
theorem claim_C1_counterexample :
    DatabricksDDLCompiler.visit_create_table exC1 =
      Except.ok "\nCREATE TABLE IF NOT EXISTS main.tbl (\n) USING DELTA\n\n" ∧
    ¬ ((DatabricksDDLCompiler.post_create_table exC1.element).data <:+
        ("\nCREATE TABLE IF NOT EXISTS main.tbl (\n) USING DELTA\n\n" : String).data) := by
  exact ⟨rfl, by decide⟩

/-- Claim C1 witness: the amended suffix property instantiated at the
concrete table exC1. -/
theorem claim_C1_witness :
    (DatabricksDDLCompiler.post_create_table exC1.element ++ "\n\n").data <:+
      ("\nCREATE TABLE IF NOT EXISTS main.tbl (\n) USING DELTA\n\n" : String).data :=
  claim_C1_using_delta.2 exC1 _ rfl

/-- Claim C2: if processing a column raises the host's CompileError (all
columns before it processing cleanly), visit_create_table raises a new
CompileError whose message is the original message prefixed with the table's
description and that column's name, chained from the original exception; an
exception other than CompileError propagates unchanged, with no recovery. -/
theorem claim_C2_compile_error_context (create : CreateTable)
    (pre rest : List CreateColumn) (col : CreateColumn)
    (hcols : create.columns = pre ++ col :: rest)
    (hpre : ∀ c ∈ pre, ∃ v, c.processed = Except.ok v) :
    (∀ (m : String) (cause : Option PyExc),
      col.processed = Except.error (PyExc.compileError m cause) →
      DatabricksDDLCompiler.visit_create_table create =
        Except.error (PyExc.compileError
          ("(in table '" ++ create.element.description ++ "', column '" ++
            col.name ++ "'): " ++ m)
          (some (PyExc.compileError m cause)))) ∧
    (∀ m : String, col.processed = Except.error (PyExc.otherExc m) →
      DatabricksDDLCompiler.visit_create_table create =
        Except.error (PyExc.otherExc m)) := by
  constructor
  · intro m cause hcol
    rw [visit_create_table_characterization, hcols,
      createTableLoop_first_error create.element.description pre col rest _ _ _
        (PyExc.compileError m cause) hpre hcol]
  · intro m hcol
    rw [visit_create_table_characterization, hcols,
      createTableLoop_first_error create.element.description pre col rest _ _ _
        (PyExc.otherExc m) hpre hcol]

/-- Claim C2 witness: the context-wrapping re-raise instantiated at a
concrete one-column table whose column processing raises CompileError with
message boom. -/
theorem claim_C2_witness :
    DatabricksDDLCompiler.visit_create_table exC2 =
      Except.error (PyExc.compileError "(in table 't2', column 'c2'): boom"
        (some (PyExc.compileError "boom" none))) :=
  (claim_C2_compile_error_context exC2 [] [] exC2col rfl (by simp)).1 "boom" none rfl

/-- Claim C4 counterexample: a table created with a column selected for
liquid clustering (liquid_cluster set) yields a CREATE TABLE text with no
CLUSTER BY clause at all, so the claim as stated is false. -/
theorem claim_C4_counterexample :
    DatabricksDDLCompiler.visit_create_table exC4 =
      Except.ok "\nCREATE TABLE IF NOT EXISTS t (\n\tx INT\n) USING DELTA\n\n" ∧
    ¬ (("CLUSTER BY" : String).data <:+:
        ("\nCREATE TABLE IF NOT EXISTS t (\n\tx INT\n) USING DELTA\n\n" : String).data) := by
  exact ⟨rfl, by decide⟩

/-- Claim C4 (amended): liquid_cluster_on_table would render the clause
CLUSTER BY followed by the column names joined by a comma and a space, but
visit_create_table never attaches it: the collection of liquid-cluster
columns is commented out in the source, so every successful CREATE TABLE
text simply ends at the USING DELTA suffix, whatever the columns'
liquid_cluster attributes are. -/
theorem claim_C4_no_cluster_by :
    (∀ cols : List String, DatabricksDDLCompiler.liquid_cluster_on_table cols =
      "CLUSTER BY (" ++ String.intercalate ", " cols ++ ")") ∧
    ∀ (create : CreateTable) (s : String),
      DatabricksDDLCompiler.visit_create_table create = Except.ok s →
      (" USING DELTA\n\n" : String).data <:+ s.data := by
  refine ⟨fun _ => rfl, fun create s h => ?_⟩
  obtain ⟨d, hd⟩ := (create_ok_shape create s h).2
  exact ⟨d, hd.symm⟩

/-- Claim C4 witness: the amended property instantiated at the concrete
liquid-cluster table exC4. -/
theorem claim_C4_witness :
    (" USING DELTA\n\n" : String).data <:+
      ("\nCREATE TABLE IF NOT EXISTS t (\n\tx INT\n) USING DELTA\n\n" : String).data :=
  claim_C4_no_cluster_by.2 exC4 _ rfl

/-- Claim C5: the liquid-clustering experiment is not a working subsystem:
rewriting every column's liquid_cluster attribute changes nothing in the
result of visit_create_table, and every successful CREATE TABLE text ends at
the USING DELTA suffix, so no CLUSTER BY clause is ever emitted. -/
theorem claim_C5_liquid_cluster_dead :
    (∀ (create : CreateTable) (f : CreateColumn → Option Bool),
      DatabricksDDLCompiler.visit_create_table
        ⟨create.element, create.columns.map (fun c => { c with liquid_cluster := f c })⟩ =
      DatabricksDDLCompiler.visit_create_table create) ∧
    ∀ (create : CreateTable) (s : String),
      DatabricksDDLCompiler.visit_create_table create = Except.ok s →
      (" USING DELTA\n\n" : String).data <:+ s.data := by
  constructor
  · intro create f
    rw [visit_create_table_characterization, visit_create_table_characterization]
    simp only []
    rw [createTableLoop_map_liquid]
  · intro create s h
    obtain ⟨d, hd⟩ := (create_ok_shape create s h).2
    exact ⟨d, hd.symm⟩

/-- Claim C5 witness: flipping the liquid_cluster attribute of the concrete
table exC5's column changes nothing, and its CREATE TABLE text ends at the
USING DELTA suffix. -/
theorem claim_C5_witness :
    DatabricksDDLCompiler.visit_create_table
      ⟨exC5.element, exC5.columns.map (fun c => { c with liquid_cluster := (fun _ => none) c })⟩ =
      DatabricksDDLCompiler.visit_create_table exC5 ∧
    (" USING DELTA\n\n" : String).data <:+
      ("\nCREATE TABLE IF NOT EXISTS t5 (\n\ty INT\n) USING DELTA\n\n" : String).data :=
  ⟨claim_C5_liquid_cluster_dead.1 exC5 (fun _ => none),
   claim_C5_liquid_cluster_dead.2 exC5 _ rfl⟩

/-- Claim C8: every successful CREATE TABLE text contains the fragment
TABLE IF NOT EXISTS, and visit_drop_table is exactly the string
DROP TABLE IF EXISTS (after a leading newline) followed by the formatted
table name; the existence guards are emitted independently of any option. -/
theorem claim_C8_existence_guards :
    (∀ (create : CreateTable) (s : String),
      DatabricksDDLCompiler.visit_create_table create = Except.ok s →
      ("TABLE IF NOT EXISTS" : String).data <:+: s.data) ∧
    ∀ table : Table, DatabricksDDLCompiler.visit_drop_table table =
      "\nDROP TABLE IF EXISTS " ++ table.formatted := by
  refine ⟨fun create s h => ?_, fun _ => rfl⟩
  obtain ⟨a, b, hab⟩ := (create_ok_shape create s h).1
  refine ⟨a, ' ' :: b, ?_⟩
  rw [hab]
  have : ("TABLE IF NOT EXISTS " : String).data =
      ("TABLE IF NOT EXISTS" : String).data ++ [' '] := rfl
  rw [this]
  simp [List.append_assoc]

/-- Claim C8 witness: the existence guards at the concrete inputs exC8 and
exC8table. -/
theorem claim_C8_witness :
    ("TABLE IF NOT EXISTS" : String).data <:+:
      ("\nCREATE TABLE IF NOT EXISTS t8 (\n) USING DELTA\n\n" : String).data ∧
    DatabricksDDLCompiler.visit_drop_table exC8table =
      "\nDROP TABLE IF EXISTS main.t8" :=
  ⟨claim_C8_existence_guards.1 exC8 _ rfl, claim_C8_existence_guards.2 exC8table⟩

/-- Claim C3: whenever the table part formats successfully,
visit_drop_column_comment produces the ALTER TABLE ... CHANGE COLUMN ...
statement whose COMMENT value is the empty-string literal (there is no DROP
form), built from the schema-qualified table part and the column name. -/
theorem claim_C3_drop_comment_empty_string (drop : ColumnCommentOp) (t : String)
    (h : DatabricksDDLCompiler._format_table_from_column drop true = some t) :
    DatabricksDDLCompiler.visit_drop_column_comment drop =
      some ("ALTER TABLE " ++ t ++ " CHANGE COLUMN " ++
        drop.element.formatted_name ++ " COMMENT '';") := by
  unfold DatabricksDDLCompiler.visit_drop_column_comment
  rw [h]

/-- Claim C3 witness: the statement produced at the concrete column
sch.tab.col. -/
theorem claim_C3_witness :
    DatabricksDDLCompiler._format_table_from_column exC3 true = some "sch.tab" ∧
    DatabricksDDLCompiler.visit_drop_column_comment exC3 =
      some "ALTER TABLE sch.tab CHANGE COLUMN col COMMENT '';" :=
  ⟨rfl, claim_C3_drop_comment_empty_string exC3 "sch.tab" rfl⟩

/-- Claim C9: _format_table_from_column is partial: with no dot in the
formatted string it fails (IndexError, modelled none); with three dot-free
components it returns the intended schema.table; with only two components
(table without schema) it returns the column name in place of the table
name (and, schema-qualified, the whole table.column string). -/
theorem claim_C9_format_table_partial :
    (∀ (obj : ColumnCommentOp) (b : Bool),
      '.' ∉ obj.element.formatted_full.data →
      DatabricksDDLCompiler._format_table_from_column obj b = none) ∧
    (∀ sch tbl col other : String,
      '.' ∉ sch.data → '.' ∉ tbl.data → '.' ∉ col.data →
      DatabricksDDLCompiler._format_table_from_column
        ⟨⟨sch ++ "." ++ tbl ++ "." ++ col, other⟩⟩ true = some (sch ++ "." ++ tbl)) ∧
    (∀ tbl col other : String, '.' ∉ tbl.data → '.' ∉ col.data →
      DatabricksDDLCompiler._format_table_from_column
        ⟨⟨tbl ++ "." ++ col, other⟩⟩ false = some col ∧
      DatabricksDDLCompiler._format_table_from_column
        ⟨⟨tbl ++ "." ++ col, other⟩⟩ true = some (tbl ++ "." ++ col)) := by
  refine ⟨?_, ?_, ?_⟩
  · intro obj b hnd
    unfold DatabricksDDLCompiler._format_table_from_column
    simp only []
    rw [splitDots_no_dot _ hnd]
    rfl
  · intro sch tbl col other hs ht hc2
    unfold DatabricksDDLCompiler._format_table_from_column
    simp only []
    have hdata : ((sch ++ "." ++ tbl ++ "." ++ col : String)).data =
        sch.data ++ '.' :: (tbl.data ++ '.' :: col.data) := by
      simp [String.data_append]
    rw [hdata, splitDots_append _ _ hs, splitDots_append _ _ ht,
      splitDots_no_dot _ hc2]
    simp only [List.map_cons, List.map_nil, mk_data]
    rfl
  · intro tbl col other ht hc2
    have hdata : ((tbl ++ "." ++ col : String)).data =
        tbl.data ++ '.' :: col.data := by
      simp [String.data_append]
    constructor
    · unfold DatabricksDDLCompiler._format_table_from_column
      simp only []
      rw [hdata, splitDots_append _ _ ht, splitDots_no_dot _ hc2]
      simp only [List.map_cons, List.map_nil, mk_data]
      rfl
    · unfold DatabricksDDLCompiler._format_table_from_column
      simp only []
      rw [hdata, splitDots_append _ _ ht, splitDots_no_dot _ hc2]
      simp only [List.map_cons, List.map_nil, mk_data]
      rfl

/-- Claim C9 witness: the two-component case at the concrete formatted
string tab.col: the column name comes back in place of the table name. -/
theorem claim_C9_witness :
    DatabricksDDLCompiler._format_table_from_column
      ⟨⟨"tab" ++ "." ++ "col", "c"⟩⟩ false = some "col" ∧
    DatabricksDDLCompiler._format_table_from_column
      ⟨⟨"tab" ++ "." ++ "col", "c"⟩⟩ true = some ("tab" ++ "." ++ "col") :=
  claim_C9_format_table_partial.2.2 "tab" "col" "c" (by decide) (by decide)

/-- Claim C7: the type compiler maps the abstract types to the dialect's
names as a fixed table: INTEGER to INT; CHAR, VARCHAR, NCHAR, TEXT and CLOB
to STRING; BLOB to BINARY; TIME and DATETIME to TIMESTAMP; DATE to DATE;
JSON to STRUCT; NUMERIC to DECIMAL without precision, to DECIMAL(precision)
without scale, and to DECIMAL(precision, scale) otherwise. -/
theorem claim_C7_type_map :
    ∀ (t : TypeObject) (p sc : Int) (s0 : Option Int),
      DatabricksTypeCompiler.visit_INTEGER t = "INT" ∧
      DatabricksTypeCompiler.visit_CHAR t = "STRING" ∧
      DatabricksTypeCompiler.visit_VARCHAR t = "STRING" ∧
      DatabricksTypeCompiler.visit_NCHAR t = "STRING" ∧
      DatabricksTypeCompiler.visit_TEXT t = "STRING" ∧
      DatabricksTypeCompiler.visit_CLOB t = "STRING" ∧
      DatabricksTypeCompiler.visit_BLOB t = "BINARY" ∧
      DatabricksTypeCompiler.visit_TIME t = "TIMESTAMP" ∧
      DatabricksTypeCompiler.visit_DATETIME t = "TIMESTAMP" ∧
      DatabricksTypeCompiler.visit_DATE t = "DATE" ∧
      DatabricksTypeCompiler.visit_JSON t = "STRUCT" ∧
      DatabricksTypeCompiler.visit_NUMERIC ⟨none, s0⟩ = "DECIMAL" ∧
      DatabricksTypeCompiler.visit_NUMERIC ⟨some p, none⟩ =
        "DECIMAL(" ++ toString p ++ ")" ∧
      DatabricksTypeCompiler.visit_NUMERIC ⟨some p, some sc⟩ =
        "DECIMAL(" ++ toString p ++ ", " ++ toString sc ++ ")" := by
  intro t p sc s0
  exact ⟨rfl, rfl, rfl, rfl, rfl, rfl, rfl, rfl, rfl, rfl, rfl, rfl, rfl, rfl⟩

/-- Claim C10: visit_ARRAY always renders ARRAY of the item type's string
representation: the equality test of the item type object against the string
VARCHAR never holds, so the ARRAY of STRING branch is unreachable and a
VARCHAR item type is rendered as ARRAY of VARCHAR, not ARRAY of STRING. -/
theorem claim_C10_array_branch_unreachable :
    ∀ ty : ArrayType,
      DatabricksTypeCompiler.visit_ARRAY ty =
        "ARRAY<" ++ ty.item_type.str_repr ++ ">" ∧
      pyEqTypeStr ty.item_type "VARCHAR" = false ∧
      DatabricksTypeCompiler.visit_ARRAY ⟨⟨"VARCHAR"⟩⟩ = "ARRAY<VARCHAR>" := by
  intro ty
  exact ⟨rfl, rfl, rfl⟩

/-- Claim C6 (amended): the identifier preparer passes a backtick as the
quote delimiter, and the legal_characters pattern accepts exactly the
non-empty strings of ASCII letters, digits and underscores together with the
four non-ASCII letters U+0130, U+0131, U+017F and U+212A that Unicode
case-insensitive matching adds to the A-to-Z range, optionally followed by
one trailing newline (the Python dollar anchor also matches just before a
newline that ends the string); an identifier outside that set requires
quoting. -/
theorem claim_C6_identifier_quoting :
    DatabricksIdentifierPreparer.initial_quote = "`" ∧
    ∀ s : String,
      DatabricksIdentifierPreparer.legal_characters_is_match s = true ↔
      ((s.data ≠ [] ∧
          ∀ c ∈ s.data, DatabricksIdentifierPreparer.isLegalIdentChar c = true) ∨
        ∃ w : List Char, s.data = w ++ ['\n'] ∧ w ≠ [] ∧
          ∀ c ∈ w, DatabricksIdentifierPreparer.isLegalIdentChar c = true) := by
  refine ⟨rfl, fun s => ?_⟩
  unfold DatabricksIdentifierPreparer.legal_characters_is_match
  simp only []
  have hsplit := List.takeWhile_append_dropWhile
    DatabricksIdentifierPreparer.isLegalIdentChar s.data
  have hnl : DatabricksIdentifierPreparer.isLegalIdentChar '\n' = false := rfl
  constructor
  · intro h
    rw [Bool.and_eq_true, Bool.or_eq_true, Bool.not_eq_true',
      List.isEmpty_eq_false] at h
    obtain ⟨h1, h2⟩ := h
    rcases h2 with h2 | h2
    · rw [List.isEmpty_iff] at h2
      left
      constructor
      · rw [← hsplit, h2, List.append_nil]
        exact h1
      · intro c hc
        rw [← hsplit, h2, List.append_nil] at hc
        exact List.mem_takeWhile_imp hc
    · rw [beq_iff_eq] at h2
      right
      refine ⟨s.data.takeWhile DatabricksIdentifierPreparer.isLegalIdentChar,
        ?_, h1, fun c hc => List.mem_takeWhile_imp hc⟩
      conv_lhs => rw [← hsplit]
      rw [h2]
  · intro h
    rcases h with ⟨hne, hall⟩ | ⟨w, hw, hne, hall⟩
    · rw [List.takeWhile_eq_self_iff.mpr hall,
        List.dropWhile_eq_nil_iff.mpr hall]
      simp [List.isEmpty_eq_false, hne]
    · have ht : (w ++ ['\n']).takeWhile
          DatabricksIdentifierPreparer.isLegalIdentChar = w := by
        rw [List.takeWhile_append, List.takeWhile_eq_self_iff.mpr hall]
        simp [List.takeWhile_cons, hnl]
      have hd : (w ++ ['\n']).dropWhile
          DatabricksIdentifierPreparer.isLegalIdentChar = ['\n'] := by
        rw [List.dropWhile_append, List.dropWhile_eq_nil_iff.mpr hall]
        simp [List.dropWhile_cons, hnl]
      rw [hw, ht, hd]
      simp [List.isEmpty_eq_false, hne]

/-- Claim C6 counterexample: the pattern matches the string of a capital A
followed by a newline and also the one-letter string of U+017F (long s),
although neither consists only of ASCII letters, digits and underscores
(isAlphanum is the ASCII letter-or-digit test), so the claim as stated is
false on two counts: the trailing-newline dollar quirk and Unicode
case-insensitive matching. -/
theorem claim_C6_counterexample :
    DatabricksIdentifierPreparer.legal_characters_is_match "A\n" = true ∧
    DatabricksIdentifierPreparer.legal_characters_is_match "ſ" = true ∧
    ('\n'.isAlphanum = false ∧ '\n' ≠ '_') ∧
    ('ſ'.isAlphanum = false ∧ 'ſ' ≠ '_') := by
  exact ⟨rfl, rfl, by decide, by decide⟩

/-- Claim C6 witness: the amended characterisation applied to the concrete
identifier tbl_9, which the pattern accepts. -/
theorem claim_C6_witness :
    DatabricksIdentifierPreparer.legal_characters_is_match "tbl_9" = true :=
  (claim_C6_identifier_quoting.2 "tbl_9").mpr (Or.inl (by decide))

end DatabricksDialect
